import Mathlib

/-!
Shallow embedding of the `aws-dynamodb` serverless component
(`src/utils.js` reconciliation helpers and `src/serverless.js` orchestrator)
together with proofs about its reconciliation logic.

Conventions of the embedding:
* JavaScript objects become Lean structures; absent / `null` / `undefined`
  fields become `Option` values (`none` for the falsy cases).
* Provider (AWS) interactions are modelled by passing the provider's raw
  answers in explicitly; the calls a code path would issue are collected in a
  `List ProviderCall` trace.
* Thrown JavaScript errors become `Except` error values.
-/

namespace AwsDynamoDb

/-- A DynamoDB attribute definition, carried opaquely by the code. -/
structure AttrDef where
  AttributeName : String
  AttributeType : String
deriving DecidableEq, Repr

/-- A key-schema element, carried opaquely by the code. -/
structure KeySchemaElement where
  AttributeName : String
  KeyType : String
deriving DecidableEq, Repr

/-- A global secondary index as it appears in configs and describe results.
The reconciler only ever inspects `IndexName`; `KeySchema` stands for the
rest of the index payload, which is passed through opaquely. -/
structure GSI where
  IndexName : String
  KeySchema : List KeySchemaElement
deriving DecidableEq, Repr

/-- The `{ IndexName }` object produced for a `Delete` index update
(`part_000` line 76): it carries only the index name. -/
structure DeleteRequest where
  IndexName : String
deriving DecidableEq, Repr

/-- The `indexUpdates` object built by `getGlobalIndexesUpdates`: a JS object
with optional `Create` and `Delete` keys. -/
structure IndexUpdates where
  Create : Option GSI := none
  Delete : Option DeleteRequest := none
deriving DecidableEq, Repr

/-- Ramda `isEmpty` on the `indexUpdates` object: true iff neither key is set. -/
def IndexUpdates.isEmpty (u : IndexUpdates) : Bool :=
  u.Create.isNone && u.Delete.isNone

/-- Embedding of `getGlobalIndexesUpdates` (`part_000` lines 57-100).
`findIndex === -1` is rendered as `List.findIdx? = none`.  Only the head of
each difference list is submitted (lines 79-97); the informational logging is
omitted as it has no effect on the returned value. -/
def getGlobalIndexesUpdates (prevGlobalSecondaryIndexes globalSecondaryIndexes : List GSI) :
    IndexUpdates :=
  let toCreate := globalSecondaryIndexes.filter fun g =>
    (prevGlobalSecondaryIndexes.findIdx? fun e => e.IndexName == g.IndexName).isNone
  let toDelete := (prevGlobalSecondaryIndexes.filter fun p =>
    (globalSecondaryIndexes.findIdx? fun e => e.IndexName == p.IndexName).isNone).map
      fun p => DeleteRequest.mk p.IndexName
  { Create := toCreate.head?, Delete := toDelete.head? }

/-- The `GlobalSecondaryIndexUpdates` field of the `updateTable` provider call
(`part_000` line 143): `[indexUpdates]` when the object is non-empty,
omitted (`undefined`) otherwise. -/
def gsiUpdatesField (prevGlobalSecondaryIndexes globalSecondaryIndexes : List GSI) :
    Option (List IndexUpdates) :=
  let indexUpdates := getGlobalIndexesUpdates prevGlobalSecondaryIndexes globalSecondaryIndexes
  if !indexUpdates.isEmpty then some [indexUpdates] else none

/-- Spec-side notion for C1: the name-difference set, i.e. the elements of
`xs` whose index name does not occur among the index names of `ys`,
in `xs` order. -/
def specNameDifference (xs ys : List GSI) : List GSI :=
  xs.filter fun g => !((ys.map GSI.IndexName).contains g.IndexName)

/-- Number of `Create` entries across the whole index-update payload. -/
def createEntryCount : Option (List IndexUpdates) → Nat
  | none => 0
  | some l => (l.filter fun u => u.Create.isSome).length

/-- Number of `Delete` entries across the whole index-update payload. -/
def deleteEntryCount : Option (List IndexUpdates) → Nat
  | none => 0
  | some l => (l.filter fun u => u.Delete.isSome).length

/-- A stream specification object.  `StreamEnabled` models the truthiness of
the JS field (absent / `false` are both `false`); `StreamViewType` is carried
opaquely. -/
structure StreamSpec where
  StreamEnabled : Bool
  StreamViewType : Option String := none
deriving DecidableEq, Repr

/-- Embedding of `getStreamUpdates` (`part_000` lines 102-117).  The
arguments are `Option`s because either stream spec may be `undefined`;
JS truthiness of `prevStream && prevStream.StreamEnabled` and of
`!stream || !stream.StreamEnabled` is rendered on `Option StreamSpec`. -/
def getStreamUpdates (prevStream stream : Option StreamSpec) : Option StreamSpec :=
  let disabledStream :=
    (match prevStream with
      | some p => p.StreamEnabled
      | none => false)
    && (match stream with
      | some s => !s.StreamEnabled
      | none => true)
  if disabledStream then
    some { StreamEnabled := false }
  else
    let enabledStream :=
      (match prevStream with
        | some p => !p.StreamEnabled
        | none => true)
      && (match stream with
        | some s => s.StreamEnabled
        | none => false)
    if enabledStream then stream else none

/-- The three decisions of the stream reconciliation table (spec 4.4). -/
inductive StreamDecision where
  | Disable
  | Enable (spec : StreamSpec)
  | NoChange
deriving DecidableEq, Repr

/-- Truthiness of the `StreamEnabled` flag of an optional stream spec. -/
def streamEnabledOf : Option StreamSpec → Bool
  | some s => s.StreamEnabled
  | none => false

/-- The decision the code's return value denotes: `null` is no change, an
object with `StreamEnabled: false` is a disable, and an enabled spec is an
enable carrying that spec. -/
def streamDecisionOf (prevStream stream : Option StreamSpec) : StreamDecision :=
  match getStreamUpdates prevStream stream with
  | none => .NoChange
  | some u => if u.StreamEnabled then .Enable u else .Disable

/-- Spec-side decision table of 4.4, written from the spec's words. -/
def specStreamDecision (prevStream stream : Option StreamSpec) : StreamDecision :=
  match streamEnabledOf prevStream, streamEnabledOf stream with
  | true, false => .Disable
  | false, true =>
    match stream with
    | some s => .Enable s
    | none => .NoChange
  | true, true => .NoChange
  | false, false => .NoChange

/-- The `StreamSpecification` field of the `updateTable` provider call
(`part_000` lines 144-146): spread in only when `streamUpdates` is truthy. -/
def streamSpecField (prevStream stream : Option StreamSpec) : Option StreamSpec :=
  getStreamUpdates prevStream stream

/-- A replica entry: the code only ever reads `RegionName`. -/
structure Replica where
  RegionName : String
deriving DecidableEq, Repr

/-- One entry of the `ReplicaUpdates` provider payload. -/
inductive ReplicaUpdate where
  | Create (RegionName : String)
  | Delete (RegionName : String)
deriving DecidableEq, Repr

/-- First-occurrence deduplication, as produced by ramda's set-based list
functions. -/
def uniqFirst (l : List String) : List String :=
  l.foldl (fun acc x => if acc.contains x then acc else acc ++ [x]) []

/-- Ramda `difference`: the unique elements of `l1` not contained in `l2`,
in first-occurrence order. -/
def rDifference (l1 l2 : List String) : List String :=
  uniqFirst (l1.filter fun x => !(l2.contains x))

/-- JS `Array.prototype.sort()` on a list of region names: sort by the
string order. -/
def sortRegions (l : List String) : List String :=
  List.insertionSort (· ≤ ·) l

/-- Embedding of `updateReplicas` (`part_000` lines 166-187).  `none` is the
early return on line 170: no provider interaction happens at all (neither
the wait-for-active nor the update call).  `some payload` means the function
goes on to wait for the table to be active and submit `payload` as the
`ReplicaUpdates` of an update-table call. -/
def updateReplicas (prevReplicas replicas : List Replica) : Option (List ReplicaUpdate) :=
  let prevRegions := sortRegions (prevReplicas.map Replica.RegionName)
  let currentRegions := sortRegions (replicas.map Replica.RegionName)
  if prevRegions = currentRegions then none
  else
    let addReplicas := (rDifference currentRegions prevRegions).map ReplicaUpdate.Create
    let deleteReplicas := (rDifference prevRegions currentRegions).map ReplicaUpdate.Delete
    some (addReplicas ++ deleteReplicas)

/-- A provider error object; the code only ever inspects its `code` field. -/
structure DynError where
  code : String
deriving DecidableEq, Repr

/-- The normalized observed table state built by `describeTable` from
`data.Table` (`part_000` lines 38-47).  Fields the provider may omit are
`Option`s. -/
structure ObservedTable where
  arn : String
  name : String
  attributeDefinitions : List AttrDef
  keySchema : List KeySchemaElement
  globalSecondaryIndexes : Option (List GSI) := none
  stream : Option StreamSpec := none
  streamArn : Option String := none
  replicas : Option (List Replica) := none
deriving DecidableEq, Repr

/-- Embedding of `describeTable` (`part_000` lines 33-55), as a function of
the provider's raw answer.  The `catch` block assigns `null` only for
`ResourceNotFoundException` and does not rethrow anything, and the
`finally { return res }` returns `res` on every path, so a non-RNF provider
error also falls through to an undefined result (`none`) — the function can
never surface an error, which is why both branches of the `if` below
produce `.ok none`. -/
def describeTable (raw : Except DynError ObservedTable) :
    Except DynError (Option ObservedTable) :=
  match raw with
  | .ok t => .ok (some t)
  | .error e =>
    if e.code == "ResourceNotFoundException" then .ok none
    else .ok none

/-- The error thrown when the poll budget is exhausted
(`part_000` line 236). -/
inductive PollError where
  | timeout
deriving DecidableEq, Repr

/-- The fixed attempt bound of `getStreamArn` (`part_000` line 223). -/
def maxTries : Nat := 5

/-- The do-while loop of `getStreamArn`: `go i fuel` performs the describe
attempts numbered `i, i+1, ...` as long as fuel remains, returning the
first non-empty stream identifier. -/
def getStreamArnGo (describeArn : Nat → Option String) : Nat → Nat → Except PollError String
  | _, 0 => .error .timeout
  | i, fuel + 1 =>
    match describeArn i with
    | some arn => .ok arn
    | none => getStreamArnGo describeArn (i + 1) fuel

/-- Embedding of `getStreamArn` (`part_000` lines 222-237): up to `maxTries`
describe attempts on a fixed sleep interval; `describeArn k` is the stream
identifier the provider reports on attempt `k` (with `none` for an
empty/absent one).  The fixed 10s sleep has no bearing on the value. -/
def getStreamArn (describeArn : Nat → Option String) : Except PollError String :=
  getStreamArnGo describeArn 0 maxTries

/-- Number of describe attempts the loop of `getStreamArn` performs. -/
def getStreamArnAttemptsGo (describeArn : Nat → Option String) : Nat → Nat → Nat
  | _, 0 => 0
  | i, fuel + 1 =>
    match describeArn i with
    | some _ => 1
    | none => getStreamArnAttemptsGo describeArn (i + 1) fuel + 1

/-- Number of describe attempts `getStreamArn` performs. -/
def getStreamArnAttempts (describeArn : Nat → Option String) : Nat :=
  getStreamArnAttemptsGo describeArn 0 maxTries

/-- Persisted component state (`this.state`): the durable record across
runs. -/
structure PersistedState where
  name : Option String := none
  arn : Option String := none
  region : Option String := none
  streamArn : Option String := none
  deletionPolicy : Option String := none
deriving DecidableEq, Repr

/-- Raw deploy inputs, before merging with the defaults.  A `none` field is
one the caller did not supply.  Local secondary indexes are carried
opaquely with the same shape as global ones. -/
structure Inputs where
  name : Option String := none
  region : Option String := none
  attributeDefinitions : Option (List AttrDef) := none
  keySchema : Option (List KeySchemaElement) := none
  globalSecondaryIndexes : Option (List GSI) := none
  localSecondaryIndexes : Option (List GSI) := none
  stream : Option StreamSpec := none
  replicas : Option (List Replica) := none
  deletionPolicy : Option String := none
deriving DecidableEq, Repr

/-- The effective config after `mergeDeepRight(defaults, inputs)`
(`serverless.js` lines 16-36 and 46), rendered field-wise: a supplied field
wins, otherwise the built-in default applies; fields without a default stay
absent. -/
structure Config where
  name : Option String
  region : String
  attributeDefinitions : List AttrDef
  keySchema : List KeySchemaElement
  globalSecondaryIndexes : List GSI
  localSecondaryIndexes : Option (List GSI)
  stream : StreamSpec
  replicas : List Replica
  deletionPolicy : Option String
deriving DecidableEq, Repr

/-- The built-in default attribute definitions (`serverless.js` lines 17-22). -/
def defaultAttributeDefinitions : List AttrDef :=
  [{ AttributeName := "id", AttributeType := "S" }]

/-- The built-in default key schema (`serverless.js` lines 23-28). -/
def defaultKeySchema : List KeySchemaElement :=
  [{ AttributeName := "id", KeyType := "HASH" }]

/-- Embedding of `const config = mergeDeepRight(defaults, inputs)`. -/
def mergeConfig (inputs : Inputs) : Config :=
  { name := inputs.name
    region := inputs.region.getD "us-east-1"
    attributeDefinitions := inputs.attributeDefinitions.getD defaultAttributeDefinitions
    keySchema := inputs.keySchema.getD defaultKeySchema
    globalSecondaryIndexes := inputs.globalSecondaryIndexes.getD []
    localSecondaryIndexes := inputs.localSecondaryIndexes
    stream := inputs.stream.getD { StreamEnabled := false }
    replicas := inputs.replicas.getD []
    deletionPolicy := inputs.deletionPolicy }

/-- Errors a deploy run can throw. -/
inductive DeployError where
  | missingCredentials
  | nameChange
  | regionChange
  | provider (e : DynError)
  | streamPollTimeout
deriving DecidableEq, Repr

/-- Embedding of the name-resolution block (`serverless.js` lines 49-66).
Note that the first two branches write the resolved name into `this.state`
immediately, before any provider interaction.  `fresh` stands for the
random `dynamodb-table-...` name synthesized on line 50-55.  Returns the
(possibly still absent) `config.name` together with the possibly-mutated
state. -/
def resolveName (configName : Option String) (state : PersistedState) (fresh : String) :
    Except DeployError (Option String × PersistedState) :=
  match configName, state.name with
  | none, none => .ok (some fresh, { state with name := some fresh })
  | some n, none => .ok (some n, { state with name := some n })
  | some n, some sn =>
    if n ≠ sn then .error .nameChange else .ok (some n, state)
  | none, some _ => .ok (none, state)

/-- A control-plane call issued to the provider, as recorded in a trace. -/
inductive ProviderCall where
  | describe (tableName : Option String)
  | create (tableName : Option String)
  | update (tableName : Option String) (attributeDefinitions : List AttrDef)
      (gsiUpdates : Option (List IndexUpdates)) (streamSpec : Option StreamSpec)
  | updateReplicaSet (tableName : Option String) (updates : List ReplicaUpdate)
  | deleteTableCall (tableName : Option String)
  | waitActive (tableName : Option String)
deriving DecidableEq, Repr

/-- The provider's raw answers for one deploy run: the initial describe, the
create-table result (`TableArn`, `LatestStreamArn`), the update-table
result (`TableArn`), the stream identifier reported on each poll attempt,
and the outcomes of the replica-phase wait-for-active and replica
update-table calls (which default to success in concrete scenarios that
never reach them or whose replica step goes through). -/
structure DeployEnv where
  hasCredentials : Bool := true
  fresh : String := ""
  describeRaw : Except DynError ObservedTable
  createRaw : Except DynError (String × Option String)
  updateRaw : Except DynError String
  pollArn : Nat → Option String
  waitRaw : Except DynError Unit := .ok ()
  replicaRaw : Except DynError Unit := .ok ()

/-- Outputs returned to the caller: `pick(['name','arn','region','streamArn'])`. -/
structure Outputs where
  name : Option String := none
  arn : Option String := none
  region : Option String := none
  streamArn : Option String := none
deriving DecidableEq, Repr

/-- The tail of a deploy (`serverless.js` lines 108-120): persist the
config-derived fields into `this.state` (lines 110-114), then reconcile
replicas (line 117) — the replica step, when one is needed, runs only after
the state has been written, and both of its provider calls (the
wait-for-active of `part_000` lines 161-164 and the replica update-table of
lines 181-186) can throw; such a failure propagates but leaves the already
written state in place.  On success the picked outputs are returned. -/
def finishDeploy (cname : Option String) (arn : Option String) (streamArn : Option String)
    (config : Config) (env : DeployEnv) (calls : List ProviderCall)
    (prevReplicas : List Replica) :
    Except DeployError Outputs × PersistedState × List ProviderCall :=
  let state2 : PersistedState :=
    { name := cname, arn := arn, region := some config.region,
      streamArn := streamArn, deletionPolicy := config.deletionPolicy }
  match updateReplicas prevReplicas config.replicas with
  | none =>
    (.ok { name := cname, arn := arn, region := some config.region, streamArn := streamArn },
      state2, calls)
  | some payload =>
    match env.waitRaw with
    | .error e =>
      (.error (.provider e), state2, calls ++ [ProviderCall.waitActive cname])
    | .ok _ =>
      match env.replicaRaw with
      | .error e =>
        (.error (.provider e), state2,
          calls ++ [ProviderCall.waitActive cname, ProviderCall.updateReplicaSet cname payload])
      | .ok _ =>
        (.ok { name := cname, arn := arn, region := some config.region,
               streamArn := streamArn },
          state2,
          calls ++ [ProviderCall.waitActive cname, ProviderCall.updateReplicaSet cname payload])

/-- Embedding of `AwsDynamoDb.deploy` (`serverless.js` lines 39-121),
returning the run's outcome, the final persisted state, and the trace of
provider calls issued.  Every provider failure — including one in the
replica phase that runs after the state write — is threaded through as the
corresponding thrown error. -/
def deploy (inputs : Inputs) (state : PersistedState) (env : DeployEnv) :
    Except DeployError Outputs × PersistedState × List ProviderCall :=
  if !env.hasCredentials then (.error .missingCredentials, state, [])
  else
    let config := mergeConfig inputs
    match resolveName config.name state env.fresh with
    | .error e => (.error e, state, [])
    | .ok (cname, state1) =>
      let calls0 := [ProviderCall.describe cname]
      match describeTable env.describeRaw with
      | .error e => (.error (.provider e), state1, calls0)
      | .ok none =>
        let calls1 := calls0 ++ [ProviderCall.create cname]
        match env.createRaw with
        | .error e => (.error (.provider e), state1, calls1)
        | .ok (tableArn, latestStreamArn) =>
          finishDeploy cname (some tableArn) latestStreamArn config env calls1 []
      | .ok (some prevTable) =>
        if state1.region ≠ some config.region then
          (.error .regionChange, state1, calls0)
        else
          let prevGSIs := prevTable.globalSecondaryIndexes.getD []
          let gsiU := gsiUpdatesField prevGSIs config.globalSecondaryIndexes
          let streamU := getStreamUpdates prevTable.stream (some config.stream)
          let calls1 := calls0 ++
            [ProviderCall.update cname config.attributeDefinitions gsiU streamU]
          let prevReplicas := prevTable.replicas.getD []
          match env.updateRaw with
          | .error e => (.error (.provider e), state1, calls1)
          | .ok _tableArn =>
            if config.stream.StreamEnabled then
              let attempts := getStreamArnAttempts env.pollArn
              let calls2 := calls1 ++ List.replicate attempts (ProviderCall.describe cname)
              match getStreamArn env.pollArn with
              | .error _ => (.error .streamPollTimeout, state1, calls2)
              | .ok arn =>
                finishDeploy cname (some prevTable.arn) (some arn) config env calls2 prevReplicas
            else
              finishDeploy cname (some prevTable.arn) none config env calls1 prevReplicas

/-- Errors a remove run can surface: a JS `TypeError` from reading a
property of `null`, or a propagated provider error. -/
inductive RemoveError where
  | typeError
  | provider (e : DynError)
deriving DecidableEq, Repr

/-- The provider's raw answers for one remove run. -/
structure RemoveEnv where
  describeRaw : Except DynError ObservedTable
  deleteRaw : Except DynError Unit

/-- Embedding of `deleteTable` (`part_000` lines 206-220): a
resource-not-found error is tolerated (the function returns `false`), any
other provider error is rethrown, and a successful delete returns `true`. -/
def deleteTable (raw : Except DynError Unit) : Except DynError Bool :=
  match raw with
  | .ok _ => .ok true
  | .error e =>
    if e.code == "ResourceNotFoundException" then .ok false
    else .error e

/-- Embedding of `AwsDynamoDb.remove` (`serverless.js` lines 126-159).
`.ok (some o)` models `return o` (with the all-absent `o` for the literal
`return {}` of the deletion-policy guard), `.ok none` the bare `return` of
the missing-name guard.  Reading `table.replicas` when the describe yielded
`null` is the JS `TypeError` outcome.  `deleteReplicas` (`part_000` lines
189-204) is inlined: no call when the replica list is empty, otherwise a
delete-only replica update followed by a wait. -/
def remove (state : PersistedState) (env : RemoveEnv) :
    Except RemoveError (Option Outputs) × PersistedState × List ProviderCall :=
  if state.deletionPolicy ≠ some "delete" then
    (.ok (some {}), state, [])
  else
    match state.name with
    | none => (.ok none, state, [])
    | some nm =>
      let calls0 := [ProviderCall.describe (some nm)]
      match describeTable env.describeRaw with
      | .error e => (.error (.provider e), state, calls0)
      | .ok none => (.error .typeError, state, calls0)
      | .ok (some table) =>
        let replicas := (table.replicas).getD []
        let calls1 := calls0 ++
          (if replicas.isEmpty then []
           else
            [ProviderCall.updateReplicaSet (some nm)
                (replicas.map fun r => ReplicaUpdate.Delete r.RegionName),
              ProviderCall.waitActive (some nm)])
        let calls2 := calls1 ++ [ProviderCall.deleteTableCall (some nm)]
        match deleteTable env.deleteRaw with
        | .error e => (.error (.provider e), state, calls2)
        | .ok _ =>
          (.ok (some { name := state.name, arn := state.arn,
                       region := state.region, streamArn := state.streamArn }),
            {}, calls2)

/-- Whether a provider call belongs to the replica-reconciliation step. -/
def isReplicaCall : ProviderCall → Bool
  | .updateReplicaSet _ _ => true
  | .waitActive _ => true
  | _ => false

/-- The membership test done with `findIndex === -1` agrees with name-set
non-membership. -/
theorem findIdx_name_eq_contains (g : GSI) (ys : List GSI) :
    ((ys.findIdx? fun e => e.IndexName == g.IndexName).isNone)
      = !((ys.map GSI.IndexName).contains g.IndexName) := by
  apply Bool.eq_iff_iff.mpr
  simp [Option.isNone_iff_eq_none, List.findIdx?_eq_none_iff]

theorem filter_name_diff_eq (xs ys : List GSI) :
    (xs.filter fun g =>
        (ys.findIdx? fun e => e.IndexName == g.IndexName).isNone)
      = specNameDifference xs ys := by
  unfold specNameDifference
  apply List.filter_congr
  intro g _
  exact findIdx_name_eq_contains g ys

/-- C1. The index-update payload holds at most one `Create` and at most one
`Delete` entry; the `Create` entry is the first element, in desired-list
order, of the desired-minus-previous name difference; the `Delete` entry is
the first element of the previous-minus-desired name difference reduced to
its index name; and the `GlobalSecondaryIndexUpdates` field is omitted from
the update-table call exactly when both difference sets are empty. -/
theorem gsi_updates_shape (prev cur : List GSI) :
    (getGlobalIndexesUpdates prev cur).Create = (specNameDifference cur prev).head? ∧
    (getGlobalIndexesUpdates prev cur).Delete
      = ((specNameDifference prev cur).map fun g => DeleteRequest.mk g.IndexName).head? ∧
    createEntryCount (gsiUpdatesField prev cur) ≤ 1 ∧
    deleteEntryCount (gsiUpdatesField prev cur) ≤ 1 ∧
    (gsiUpdatesField prev cur = none ↔
      specNameDifference cur prev = [] ∧ specNameDifference prev cur = []) := by
  have hc : (getGlobalIndexesUpdates prev cur).Create
      = (specNameDifference cur prev).head? := by
    unfold getGlobalIndexesUpdates
    rw [filter_name_diff_eq cur prev]
  have hd : (getGlobalIndexesUpdates prev cur).Delete
      = ((specNameDifference prev cur).map fun g => DeleteRequest.mk g.IndexName).head? := by
    unfold getGlobalIndexesUpdates
    rw [filter_name_diff_eq prev cur]
  refine ⟨hc, hd, ?_, ?_, ?_⟩
  · unfold gsiUpdatesField createEntryCount
    by_cases he : (getGlobalIndexesUpdates prev cur).isEmpty <;> simp [he]
    cases hp : (getGlobalIndexesUpdates prev cur).Create.isSome <;> simp [hp]
  · unfold gsiUpdatesField deleteEntryCount
    by_cases he : (getGlobalIndexesUpdates prev cur).isEmpty <;> simp [he]
    cases hp : (getGlobalIndexesUpdates prev cur).Delete.isSome <;> simp [hp]
  · unfold gsiUpdatesField
    constructor
    · intro h
      by_cases he : (getGlobalIndexesUpdates prev cur).isEmpty
      · unfold IndexUpdates.isEmpty at he
        have h1 := (Bool.and_eq_true _ _).mp he
        constructor
        · rw [← List.head?_eq_none_iff, ← hc]
          exact Option.isNone_iff_eq_none.mp h1.1
        · have h2 : ((specNameDifference prev cur).map
              fun g => DeleteRequest.mk g.IndexName) = [] := by
            rw [← List.head?_eq_none_iff, ← hd]
            exact Option.isNone_iff_eq_none.mp h1.2
          exact List.map_eq_nil_iff.mp h2
      · simp [he] at h
    · rintro ⟨h1, h2⟩
      have e1 : (getGlobalIndexesUpdates prev cur).Create = none := by
        rw [hc, h1]; rfl
      have e2 : (getGlobalIndexesUpdates prev cur).Delete = none := by
        rw [hd, h2]; rfl
      simp [IndexUpdates.isEmpty, e1, e2]

/-- C2. The stream reconciler's decision agrees with the 4.4 transition table
on every combination of previous and desired stream specs, including absent
and malformed (not-enabled) desired specs, and a no-change decision leaves
the stream-specification field out of the update-table payload. -/
theorem stream_decision_table (prevStream stream : Option StreamSpec) :
    streamDecisionOf prevStream stream = specStreamDecision prevStream stream ∧
    (specStreamDecision prevStream stream = .NoChange →
      streamSpecField prevStream stream = none) := by
  rcases prevStream with _ | p
  · rcases stream with _ | s
    · exact ⟨rfl, fun _ => rfl⟩
    · rcases hs : s.StreamEnabled with _ | _ <;>
        simp [streamDecisionOf, specStreamDecision, getStreamUpdates,
          streamEnabledOf, streamSpecField, hs]
  · rcases stream with _ | s
    · rcases hp : p.StreamEnabled with _ | _ <;>
        simp [streamDecisionOf, specStreamDecision, getStreamUpdates,
          streamEnabledOf, streamSpecField, hp]
    · rcases hp : p.StreamEnabled with _ | _ <;>
        rcases hs : s.StreamEnabled with _ | _ <;>
        simp [streamDecisionOf, specStreamDecision, getStreamUpdates,
          streamEnabledOf, streamSpecField, hp, hs]

/-- Sorting a list of region names is invariant under permutation of the
input. -/
theorem sortRegions_perm_eq {l l' : List String} (h : l.Perm l') :
    sortRegions l = sortRegions l' :=
  List.eq_of_perm_of_sorted
    ((List.perm_insertionSort _ l).trans (h.trans (List.perm_insertionSort _ l').symm))
    (List.sorted_insertionSort _ l) (List.sorted_insertionSort _ l')

/-- C3. The replica reconciler decides the no-op by comparing the sorted
region-name lists: when the two region-name collections are equal as sets
(for duplicate-free replica lists, as replica sets are unique by region),
no provider call is made, and reordering either input list never changes
whether the no-op is detected. -/
theorem replica_noop_set_invariance
    (prevReplicas replicas prevReplicas2 replicas2 : List Replica)
    (hp : (prevReplicas.map Replica.RegionName).Nodup)
    (hc : (replicas.map Replica.RegionName).Nodup)
    (hperm1 : prevReplicas.Perm prevReplicas2)
    (hperm2 : replicas.Perm replicas2) :
    ((prevReplicas.map Replica.RegionName).toFinset
        = (replicas.map Replica.RegionName).toFinset →
      updateReplicas prevReplicas replicas = none) ∧
    (updateReplicas prevReplicas replicas = none ↔
      updateReplicas prevReplicas2 replicas2 = none) := by
  have hs1 : sortRegions (prevReplicas.map Replica.RegionName)
      = sortRegions (prevReplicas2.map Replica.RegionName) :=
    sortRegions_perm_eq (hperm1.map _)
  have hs2 : sortRegions (replicas.map Replica.RegionName)
      = sortRegions (replicas2.map Replica.RegionName) :=
    sortRegions_perm_eq (hperm2.map _)
  constructor
  · intro hset
    have hpm : (prevReplicas.map Replica.RegionName).Perm
        (replicas.map Replica.RegionName) :=
      List.perm_of_nodup_nodup_toFinset_eq hp hc hset
    have hq : sortRegions (prevReplicas.map Replica.RegionName)
        = sortRegions (replicas.map Replica.RegionName) :=
      sortRegions_perm_eq hpm
    unfold updateReplicas
    rw [if_pos hq]
  · unfold updateReplicas
    rw [hs1, hs2]

/-- Witness for C3 at concrete inputs: two region lists equal as sets but
oppositely ordered are detected as a no-op. -/
theorem replica_noop_set_invariance_witness :
    updateReplicas [Replica.mk "eu-west-1", Replica.mk "us-east-1"]
        [Replica.mk "us-east-1", Replica.mk "eu-west-1"] = none ∧
    (updateReplicas [Replica.mk "eu-west-1", Replica.mk "us-east-1"]
        [Replica.mk "us-east-1", Replica.mk "eu-west-1"] = none ↔
      updateReplicas [Replica.mk "us-east-1", Replica.mk "eu-west-1"]
        [Replica.mk "eu-west-1", Replica.mk "us-east-1"] = none) := by
  have h := replica_noop_set_invariance
    [Replica.mk "eu-west-1", Replica.mk "us-east-1"]
    [Replica.mk "us-east-1", Replica.mk "eu-west-1"]
    [Replica.mk "us-east-1", Replica.mk "eu-west-1"]
    [Replica.mk "eu-west-1", Replica.mk "us-east-1"]
    (by decide) (by decide) (by decide) (by decide)
  exact ⟨h.1 (by decide), h.2⟩

/-- C5 evidence.  The observer maps a resource-not-found provider error to
the absent outcome, but a non-RNF provider error (for example
`AccessDeniedException`) is also swallowed into the absent-like `none`
result instead of propagating: no provider error ever escapes
`describeTable`. -/
theorem describeTable_error_mapping :
    describeTable (.error (DynError.mk "ResourceNotFoundException")) = .ok none ∧
    describeTable (.error (DynError.mk "AccessDeniedException")) = .ok none ∧
    (∀ e : DynError, describeTable (.error e) = .ok none) ∧
    (∀ t : ObservedTable, describeTable (.ok t) = .ok (some t)) := by
  refine ⟨rfl, rfl, fun e => ?_, fun t => rfl⟩
  unfold describeTable
  by_cases h : (e.code == "ResourceNotFoundException") = true <;> simp [h]

theorem getStreamArnAttemptsGo_le (describeArn : Nat → Option String) :
    ∀ fuel i, getStreamArnAttemptsGo describeArn i fuel ≤ fuel := by
  intro fuel
  induction fuel with
  | zero => intro i; exact Nat.le_refl 0
  | succ f ih =>
    intro i
    unfold getStreamArnAttemptsGo
    cases describeArn i
    · exact Nat.succ_le_succ (ih (i + 1))
    · exact Nat.succ_le_succ (Nat.zero_le f)

theorem getStreamArnGo_all_none (describeArn : Nat → Option String) :
    ∀ fuel i, (∀ k, k < fuel → describeArn (i + k) = none) →
      getStreamArnGo describeArn i fuel = .error .timeout := by
  intro fuel
  induction fuel with
  | zero => intro i _; rfl
  | succ f ih =>
    intro i h
    have h0 : describeArn i = none := by simpa using h 0 (Nat.succ_pos f)
    unfold getStreamArnGo
    rw [h0]
    exact ih (i + 1) fun k hk => by
      have := h (k + 1) (Nat.succ_lt_succ hk)
      simpa [Nat.add_assoc, Nat.add_comm 1 k] using this

theorem getStreamArnGo_first_some (describeArn : Nat → Option String) :
    ∀ fuel i k a, k < fuel → (∀ j, j < k → describeArn (i + j) = none) →
      describeArn (i + k) = some a →
      getStreamArnGo describeArn i fuel = .ok a := by
  intro fuel
  induction fuel with
  | zero => intro i k a hk; exact absurd hk (Nat.not_lt_zero k)
  | succ f ih =>
    intro i k a hk hnone hsome
    cases k with
    | zero =>
      unfold getStreamArnGo
      rw [show describeArn i = some a by simpa using hsome]
    | succ k' =>
      have h0 : describeArn i = none := by simpa using hnone 0 (Nat.succ_pos k')
      unfold getStreamArnGo
      rw [h0]
      refine ih (i + 1) k' a (Nat.lt_of_succ_lt_succ hk) ?_ ?_
      · intro j hj
        have := hnone (j + 1) (Nat.succ_lt_succ hj)
        simpa [Nat.add_assoc, Nat.add_comm 1 j] using this
      · have : i + (k' + 1) = i + 1 + k' := by omega
        rw [← this]
        exact hsome

/-- C9. The stream-identifier poller performs at most `maxTries` describe
attempts; if every attempt within the budget reports an empty identifier it
fails with the explicit timeout error; and it returns the identifier of the
first attempt that reports a non-empty one. -/
theorem stream_poll_bounded (describeArn : Nat → Option String) :
    getStreamArnAttempts describeArn ≤ maxTries ∧
    ((∀ k, k < maxTries → describeArn k = none) →
      getStreamArn describeArn = .error .timeout) ∧
    (∀ k a, k < maxTries → (∀ j, j < k → describeArn j = none) →
      describeArn k = some a → getStreamArn describeArn = .ok a) := by
  refine ⟨getStreamArnAttemptsGo_le describeArn maxTries 0, ?_, ?_⟩
  · intro h
    exact getStreamArnGo_all_none describeArn maxTries 0 fun k hk => by
      simpa using h k hk
  · intro k a hk hnone hsome
    refine getStreamArnGo_first_some describeArn maxTries 0 k a hk ?_ ?_
    · intro j hj; simpa using hnone j hj
    · simpa using hsome

/-- Witness for C9: an oracle that reports the identifier on the third
attempt makes the poll succeed with it, and an always-empty oracle makes it
fail with the timeout error. -/
theorem stream_poll_bounded_witness :
    getStreamArn (fun k => if k == 2 then some "arn:aws:stream" else none)
        = .ok "arn:aws:stream" ∧
    getStreamArn (fun _ => none) = .error .timeout := by
  constructor
  · exact (stream_poll_bounded (fun k => if k == 2 then some "arn:aws:stream" else none)).2.2
      2 "arn:aws:stream" (by decide) (by decide) (by decide)
  · exact (stream_poll_bounded (fun _ => none)).2.1 fun k _ => rfl

/-- C8. Removal with a deletion policy other than exactly `delete` makes no
provider call, returns the empty object, and leaves the persisted state
intact; removal with the `delete` policy but no persisted name aborts with a
bare return and no provider call. -/
theorem remove_deletion_gating (state : PersistedState) (env : RemoveEnv) :
    (state.deletionPolicy ≠ some "delete" →
      remove state env = (.ok (some {}), state, [])) ∧
    (state.deletionPolicy = some "delete" → state.name = none →
      remove state env = (.ok none, state, [])) := by
  constructor
  · intro h
    unfold remove
    rw [if_pos h]
  · intro h hn
    unfold remove
    rw [if_neg (by simp [h]), hn]

/-- Witness for C8 at concrete states: a `retain` policy and a `delete`
policy with no persisted name. -/
theorem remove_deletion_gating_witness :
    remove { deletionPolicy := some "retain" }
        ⟨.error ⟨"ResourceNotFoundException"⟩, .ok ()⟩
      = (.ok (some {}), { deletionPolicy := some "retain" }, []) ∧
    remove { deletionPolicy := some "delete" }
        ⟨.error ⟨"ResourceNotFoundException"⟩, .ok ()⟩
      = (.ok none, { deletionPolicy := some "delete" }, []) := by
  constructor
  · exact (remove_deletion_gating _ _).1 (by decide)
  · exact (remove_deletion_gating _ _).2 rfl rfl

/-- C10. With the `delete` policy and a persisted name, a removal against an
already-absent table reads `replicas` off the observer's `null` result: the
run dies with a `TypeError` after only the describe call, never reaching
delete-table — even though `deleteTable` itself tolerates an absent table
(a resource-not-found error yields `false`, not a thrown error). -/
theorem remove_absent_table_type_error (state : PersistedState) (env : RemoveEnv)
    (nm : String)
    (hpol : state.deletionPolicy = some "delete")
    (hname : state.name = some nm)
    (habs : describeTable env.describeRaw = .ok none) :
    remove state env = (.error .typeError, state, [ProviderCall.describe (some nm)]) ∧
    deleteTable (.error (DynError.mk "ResourceNotFoundException")) = .ok false := by
  refine ⟨?_, rfl⟩
  unfold remove
  rw [if_neg (by simp [hpol]), hname, habs]

/-- Witness for C10: a concrete delete-policy state whose table the provider
no longer knows. -/
theorem remove_absent_table_type_error_witness :
    remove { name := some "tbl", region := some "us-east-1",
             deletionPolicy := some "delete" }
        ⟨.error ⟨"ResourceNotFoundException"⟩, .ok ()⟩
      = (.error .typeError,
          { name := some "tbl", region := some "us-east-1",
            deletionPolicy := some "delete" },
          [ProviderCall.describe (some "tbl")]) ∧
    deleteTable (.error (DynError.mk "ResourceNotFoundException")) = .ok false :=
  remove_absent_table_type_error _ _ "tbl" rfl rfl rfl

/-- C4 amended. When the table already exists and the effective region
differs from the persisted region, the deploy fails with the
region-immutability error and issues no provider call beyond the initial
describe-table observation — in particular no mutating call. -/
theorem deploy_region_change_rejected (inputs : Inputs) (state : PersistedState)
    (env : DeployEnv) (cname : Option String) (state1 : PersistedState) (t : ObservedTable)
    (hcred : env.hasCredentials = true)
    (hres : resolveName (mergeConfig inputs).name state env.fresh = .ok (cname, state1))
    (hdesc : env.describeRaw = .ok t)
    (hreg : state1.region ≠ some (mergeConfig inputs).region) :
    deploy inputs state env
      = (.error .regionChange, state1, [ProviderCall.describe cname]) := by
  unfold deploy
  simp only [hcred, Bool.not_true, Bool.false_eq_true, if_false, hres, hdesc, describeTable]
  rw [if_pos hreg]

/-- Counterexample for C4 as stated: on a concrete existing-table deploy
whose region differs from the persisted one, the run does fail with the
region-immutability error, but its provider-call trace is not empty — the
initial describe-table call was already issued before the check. -/
theorem deploy_region_change_counterexample :
    (deploy { name := some "tbl", region := some "eu-west-1" }
        { name := some "tbl", region := some "us-east-1" }
        { fresh := "f",
          describeRaw := .ok { arn := "arn:tbl", name := "tbl",
                               attributeDefinitions := [], keySchema := [] },
          createRaw := .ok ("arn:tbl", none),
          updateRaw := .ok "arn:tbl",
          pollArn := fun _ => none }).1 = .error .regionChange ∧
    (deploy { name := some "tbl", region := some "eu-west-1" }
        { name := some "tbl", region := some "us-east-1" }
        { fresh := "f",
          describeRaw := .ok { arn := "arn:tbl", name := "tbl",
                               attributeDefinitions := [], keySchema := [] },
          createRaw := .ok ("arn:tbl", none),
          updateRaw := .ok "arn:tbl",
          pollArn := fun _ => none }).2.2
      = [ProviderCall.describe (some "tbl")] ∧
    (deploy { name := some "tbl", region := some "eu-west-1" }
        { name := some "tbl", region := some "us-east-1" }
        { fresh := "f",
          describeRaw := .ok { arn := "arn:tbl", name := "tbl",
                               attributeDefinitions := [], keySchema := [] },
          createRaw := .ok ("arn:tbl", none),
          updateRaw := .ok "arn:tbl",
          pollArn := fun _ => none }).2.2 ≠ [] := by
  exact ⟨rfl, rfl, by decide⟩

/-- Witness for the amended C4 theorem at a concrete existing-table deploy
with a changed region. -/
theorem deploy_region_change_rejected_witness :
    deploy { name := some "t2", region := some "eu-west-1" }
        { name := some "t2", region := some "us-east-1" }
        { fresh := "g",
          describeRaw := .ok { arn := "arn:t2", name := "t2",
                               attributeDefinitions := [], keySchema := [] },
          createRaw := .ok ("arn:t2", none),
          updateRaw := .ok "arn:t2",
          pollArn := fun _ => none }
      = (.error .regionChange,
          { name := some "t2", region := some "us-east-1" },
          [ProviderCall.describe (some "t2")]) :=
  deploy_region_change_rejected _ _ _ (some "t2")
    { name := some "t2", region := some "us-east-1" }
    { arn := "arn:t2", name := "t2", attributeDefinitions := [], keySchema := [] }
    rfl rfl rfl (by decide)

/-- Name resolution can only touch the `name` field of the persisted state:
all other fields survive unchanged. -/
theorem resolveName_frame (configName : Option String) (state : PersistedState)
    (fresh : String) (cname : Option String) (state1 : PersistedState)
    (h : resolveName configName state fresh = .ok (cname, state1)) :
    state1.arn = state.arn ∧ state1.region = state.region ∧
    state1.streamArn = state.streamArn ∧
    state1.deletionPolicy = state.deletionPolicy := by
  unfold resolveName at h
  rcases configName with _ | n <;> rcases hsn : state.name with _ | sn <;> rw [hsn] at h
  · obtain ⟨-, h2⟩ := Prod.mk.injEq .. ▸ Except.ok.inj h
    subst h2
    exact ⟨rfl, rfl, rfl, rfl⟩
  · obtain ⟨-, h2⟩ := Prod.mk.injEq .. ▸ Except.ok.inj h
    subst h2
    exact ⟨rfl, rfl, rfl, rfl⟩
  · obtain ⟨-, h2⟩ := Prod.mk.injEq .. ▸ Except.ok.inj h
    subst h2
    exact ⟨rfl, rfl, rfl, rfl⟩
  · have h' : (if n ≠ sn then (Except.error DeployError.nameChange :
        Except DeployError (Option String × PersistedState))
        else Except.ok (some n, state)) = Except.ok (cname, state1) := h
    by_cases hne : n ≠ sn
    · rw [if_pos hne] at h'
      exact absurd h' (by simp)
    · rw [if_neg hne] at h'
      obtain ⟨-, h2⟩ := Prod.mk.injEq .. ▸ Except.ok.inj h'
      subst h2
      exact ⟨rfl, rfl, rfl, rfl⟩

/-- Case analysis of a deploy run's final state: the run either fails
before name resolution completed, leaving the initial state; or fails
between name resolution and the state write, leaving the name-resolved
state; or reaches the state write, after which the final state is the fully
persisted record and the run either succeeds or fails in the replica phase,
whose wait-for-active call is then in the trace. -/
theorem deploy_cases (inputs : Inputs) (state : PersistedState) (env : DeployEnv) :
    (∃ cname state1,
        resolveName (mergeConfig inputs).name state env.fresh = .ok (cname, state1) ∧
        ((deploy inputs state env).2.1 = state1 ∨
          ∃ arnv sa,
            (deploy inputs state env).2.1
              = { name := cname, arn := some arnv,
                  region := some (mergeConfig inputs).region, streamArn := sa,
                  deletionPolicy := (mergeConfig inputs).deletionPolicy } ∧
            ((∃ o, (deploy inputs state env).1 = .ok o) ∨
              ProviderCall.waitActive cname ∈ (deploy inputs state env).2.2))) ∨
    (deploy inputs state env).2.1 = state := by
  rcases hcred : env.hasCredentials with _ | _
  · right
    simp only [deploy, hcred, Bool.not_false, if_true]
  · rcases hres : resolveName (mergeConfig inputs).name state env.fresh with e | p
    · right
      simp only [deploy, hcred, Bool.not_true, Bool.false_eq_true, if_false, hres]
    · obtain ⟨cname, state1⟩ := p
      refine Or.inl ⟨cname, state1, rfl, ?_⟩
      rcases hdesc : describeTable env.describeRaw with e | ot
      · left
        simp only [deploy, hcred, Bool.not_true, Bool.false_eq_true, if_false, hres, hdesc]
      · rcases ot with _ | prevTable
        · rcases hcr : env.createRaw with e | pc
          · left
            simp only [deploy, hcred, Bool.not_true, Bool.false_eq_true, if_false,
              hres, hdesc, hcr]
          · obtain ⟨ta, lsa⟩ := pc
            right
            simp only [deploy, hcred, Bool.not_true, Bool.false_eq_true, if_false,
              hres, hdesc, hcr, finishDeploy]
            rcases hrep : updateReplicas [] (mergeConfig inputs).replicas with _ | payload <;>
              simp only [hrep]
            · exact ⟨ta, lsa, rfl, Or.inl ⟨_, rfl⟩⟩
            · rcases hwait : env.waitRaw with e | u <;> simp only [hwait]
              · exact ⟨ta, lsa, rfl, Or.inr (by simp)⟩
              · rcases hrraw : env.replicaRaw with e | u <;> simp only [hrraw]
                · exact ⟨ta, lsa, rfl, Or.inr (by simp)⟩
                · exact ⟨ta, lsa, rfl, Or.inl ⟨_, rfl⟩⟩
        · by_cases hreg : state1.region ≠ some (mergeConfig inputs).region
          · left
            simp only [deploy, hcred, Bool.not_true, Bool.false_eq_true, if_false,
              hres, hdesc]
            rw [if_pos hreg]
          · rcases hupd : env.updateRaw with e | ua
            · left
              simp only [deploy, hcred, Bool.not_true, Bool.false_eq_true, if_false,
                hres, hdesc, hupd]
              rw [if_neg hreg]
            · rcases hse : (mergeConfig inputs).stream.StreamEnabled with _ | _
              · right
                simp only [deploy, hcred, Bool.not_true, Bool.false_eq_true, if_false,
                  hres, hdesc, hupd, hse, finishDeploy]
                rw [if_neg hreg]
                rcases hrep : updateReplicas (prevTable.replicas.getD [])
                    (mergeConfig inputs).replicas with _ | payload <;>
                  simp only [hrep]
                · exact ⟨prevTable.arn, none, rfl, Or.inl ⟨_, rfl⟩⟩
                · rcases hwait : env.waitRaw with e | u <;> simp only [hwait]
                  · exact ⟨prevTable.arn, none, rfl, Or.inr (by simp)⟩
                  · rcases hrraw : env.replicaRaw with e | u <;> simp only [hrraw]
                    · exact ⟨prevTable.arn, none, rfl, Or.inr (by simp)⟩
                    · exact ⟨prevTable.arn, none, rfl, Or.inl ⟨_, rfl⟩⟩
              · rcases hga : getStreamArn env.pollArn with pe | a
                · left
                  simp only [deploy, hcred, Bool.not_true, Bool.false_eq_true, if_false,
                    hres, hdesc, hupd, hse, if_true, hga]
                  rw [if_neg hreg]
                · right
                  simp only [deploy, hcred, Bool.not_true, Bool.false_eq_true, if_false,
                    hres, hdesc, hupd, hse, if_true, hga, finishDeploy]
                  rw [if_neg hreg]
                  rcases hrep : updateReplicas (prevTable.replicas.getD [])
                      (mergeConfig inputs).replicas with _ | payload <;>
                    simp only [hrep]
                  · exact ⟨prevTable.arn, some a, rfl, Or.inl ⟨_, rfl⟩⟩
                  · rcases hwait : env.waitRaw with e | u <;> simp only [hwait]
                    · exact ⟨prevTable.arn, some a, rfl, Or.inr (by simp)⟩
                    · rcases hrraw : env.replicaRaw with e | u <;> simp only [hrraw]
                      · exact ⟨prevTable.arn, some a, rfl, Or.inr (by simp)⟩
                      · exact ⟨prevTable.arn, some a, rfl, Or.inl ⟨_, rfl⟩⟩

/-- C7 amended. Whenever a deploy run fails, the persisted state it leaves
behind reflects the last fully-committed phase, except possibly the name:
if the failure happened before the post-commit state write, every field but
`name` holds its initial value (the resolved name is written into the state
during config resolution, before any provider call); if the failure
happened in the replica phase — which runs only after the state write and
is recognizable by its wait-for-active call in the trace — the state is the
fully persisted record of the committed create/update phase. -/
theorem deploy_failure_frame (inputs : Inputs) (state : PersistedState) (env : DeployEnv)
    (h : ∃ err, (deploy inputs state env).1 = .error err) :
    ((deploy inputs state env).2.1.arn = state.arn ∧
     (deploy inputs state env).2.1.region = state.region ∧
     (deploy inputs state env).2.1.streamArn = state.streamArn ∧
     (deploy inputs state env).2.1.deletionPolicy = state.deletionPolicy) ∨
    (∃ cname state1 arnv sa,
      resolveName (mergeConfig inputs).name state env.fresh = .ok (cname, state1) ∧
      (deploy inputs state env).2.1
        = { name := cname, arn := some arnv,
            region := some (mergeConfig inputs).region, streamArn := sa,
            deletionPolicy := (mergeConfig inputs).deletionPolicy } ∧
      ProviderCall.waitActive cname ∈ (deploy inputs state env).2.2) := by
  obtain ⟨err, herr⟩ := h
  rcases deploy_cases inputs state env with
    ⟨cname, state1, hres, hfin | ⟨arnv, sa, hfin, hok | hwait⟩⟩ | hstate
  · left
    rw [hfin]
    exact resolveName_frame _ _ _ _ _ hres
  · obtain ⟨o, hok⟩ := hok
    rw [hok] at herr
    exact absurd herr (by simp)
  · right
    exact ⟨cname, state1, arnv, sa, hres, hfin, hwait⟩
  · left
    rw [hstate]
    exact ⟨rfl, rfl, rfl, rfl⟩

/-- Counterexample for C7 as stated: on a first deploy with no supplied
name whose create-table call fails, no phase has committed, yet the
persisted state no longer equals the initial (empty) state — the
synthesized name was written into it during config merging, before the
provider was ever called. -/
theorem config_merge_state_effect_counterexample :
    (deploy {} {}
        { fresh := "dynamodb-table-abc",
          describeRaw := .error ⟨"ResourceNotFoundException"⟩,
          createRaw := .error ⟨"InternalError"⟩,
          updateRaw := .ok "",
          pollArn := fun _ => none }).1
      = .error (.provider ⟨"InternalError"⟩) ∧
    (deploy {} {}
        { fresh := "dynamodb-table-abc",
          describeRaw := .error ⟨"ResourceNotFoundException"⟩,
          createRaw := .error ⟨"InternalError"⟩,
          updateRaw := .ok "",
          pollArn := fun _ => none }).2.1 ≠ ({} : PersistedState) ∧
    (deploy {} {}
        { fresh := "dynamodb-table-abc",
          describeRaw := .error ⟨"ResourceNotFoundException"⟩,
          createRaw := .error ⟨"InternalError"⟩,
          updateRaw := .ok "",
          pollArn := fun _ => none }).2.1.name = some "dynamodb-table-abc" :=
  ⟨rfl, by decide, rfl⟩

/-- Witness for the amended C7 theorem: a concrete deploy whose
wait-for-active call fails during the replica phase — after the state
write — satisfies the frame disjunction, and its hypothesis is discharged
by evaluating the run to its provider error. -/
theorem deploy_failure_frame_witness :
    (((deploy { name := some "w2", region := some "us-east-1", replicas := some [Replica.mk "eu-west-1"] }
        { name := some "w2", region := some "us-east-1" }
        { fresh := "k",
          describeRaw := .ok { arn := "arn:w2", name := "w2",
                               attributeDefinitions := [], keySchema := [] },
          createRaw := .ok ("arn:w2", none),
          updateRaw := .ok "arn:w2",
          pollArn := fun _ => none,
          waitRaw := .error ⟨"ResourceInUseException"⟩ }).2.1.arn = none ∧
      (deploy { name := some "w2", region := some "us-east-1", replicas := some [Replica.mk "eu-west-1"] }
        { name := some "w2", region := some "us-east-1" }
        { fresh := "k",
          describeRaw := .ok { arn := "arn:w2", name := "w2",
                               attributeDefinitions := [], keySchema := [] },
          createRaw := .ok ("arn:w2", none),
          updateRaw := .ok "arn:w2",
          pollArn := fun _ => none,
          waitRaw := .error ⟨"ResourceInUseException"⟩ }).2.1.region = some "us-east-1" ∧
      (deploy { name := some "w2", region := some "us-east-1", replicas := some [Replica.mk "eu-west-1"] }
        { name := some "w2", region := some "us-east-1" }
        { fresh := "k",
          describeRaw := .ok { arn := "arn:w2", name := "w2",
                               attributeDefinitions := [], keySchema := [] },
          createRaw := .ok ("arn:w2", none),
          updateRaw := .ok "arn:w2",
          pollArn := fun _ => none,
          waitRaw := .error ⟨"ResourceInUseException"⟩ }).2.1.streamArn = none ∧
      (deploy { name := some "w2", region := some "us-east-1", replicas := some [Replica.mk "eu-west-1"] }
        { name := some "w2", region := some "us-east-1" }
        { fresh := "k",
          describeRaw := .ok { arn := "arn:w2", name := "w2",
                               attributeDefinitions := [], keySchema := [] },
          createRaw := .ok ("arn:w2", none),
          updateRaw := .ok "arn:w2",
          pollArn := fun _ => none,
          waitRaw := .error ⟨"ResourceInUseException"⟩ }).2.1.deletionPolicy = none) ∨
     (∃ cname state1 arnv sa,
        resolveName (some "w2") { name := some "w2", region := some "us-east-1" } "k" = .ok (cname, state1) ∧
        (deploy { name := some "w2", region := some "us-east-1", replicas := some [Replica.mk "eu-west-1"] }
        { name := some "w2", region := some "us-east-1" }
        { fresh := "k",
          describeRaw := .ok { arn := "arn:w2", name := "w2",
                               attributeDefinitions := [], keySchema := [] },
          createRaw := .ok ("arn:w2", none),
          updateRaw := .ok "arn:w2",
          pollArn := fun _ => none,
          waitRaw := .error ⟨"ResourceInUseException"⟩ }).2.1
          = { name := cname, arn := some arnv, region := some "us-east-1",
              streamArn := sa, deletionPolicy := none } ∧
        ProviderCall.waitActive cname ∈ (deploy { name := some "w2", region := some "us-east-1", replicas := some [Replica.mk "eu-west-1"] }
        { name := some "w2", region := some "us-east-1" }
        { fresh := "k",
          describeRaw := .ok { arn := "arn:w2", name := "w2",
                               attributeDefinitions := [], keySchema := [] },
          createRaw := .ok ("arn:w2", none),
          updateRaw := .ok "arn:w2",
          pollArn := fun _ => none,
          waitRaw := .error ⟨"ResourceInUseException"⟩ }).2.2)) :=
  deploy_failure_frame
    { name := some "w2", region := some "us-east-1", replicas := some [Replica.mk "eu-west-1"] }
    { name := some "w2", region := some "us-east-1" }
    { fresh := "k",
          describeRaw := .ok { arn := "arn:w2", name := "w2",
                               attributeDefinitions := [], keySchema := [] },
          createRaw := .ok ("arn:w2", none),
          updateRaw := .ok "arn:w2",
          pollArn := fun _ => none,
          waitRaw := .error ⟨"ResourceInUseException"⟩ }
    ⟨.provider ⟨"ResourceInUseException"⟩, rfl⟩

/-- With identical previous and desired index lists, both name differences
are empty. -/
theorem specNameDifference_self (l : List GSI) : specNameDifference l l = [] := by
  unfold specNameDifference
  apply List.filter_eq_nil_iff.mpr
  intro g hg
  have hm : g.IndexName ∈ l.map GSI.IndexName := List.mem_map_of_mem _ hg
  simp [hm]

/-- With identical previous and desired index lists, the
`GlobalSecondaryIndexUpdates` field is omitted. -/
theorem gsiUpdatesField_self (l : List GSI) : gsiUpdatesField l l = none := by
  unfold gsiUpdatesField getGlobalIndexesUpdates
  rw [filter_name_diff_eq l l, specNameDifference_self]
  simp [IndexUpdates.isEmpty]

/-- With identical previous and desired stream specs, the stream reconciler
decides no change. -/
theorem getStreamUpdates_self (s : StreamSpec) :
    getStreamUpdates (some s) (some s) = none := by
  obtain ⟨e, v⟩ := s
  cases e <;> rfl

/-- With identical previous and desired replica lists, the replica
reconciler makes no call. -/
theorem updateReplicas_self (r : List Replica) : updateReplicas r r = none := by
  unfold updateReplicas
  rw [if_pos rfl]

/-- Stream-poll describe calls are not replica calls. -/
theorem filter_replicate_describe (k : Nat) (nm : Option String) :
    (List.replicate k (ProviderCall.describe nm)).filter isReplicaCall = [] := by
  apply List.filter_eq_nil_iff.mpr
  intro c hc
  rw [List.eq_of_mem_replicate hc]
  simp [isReplicaCall]

/-- C6. When the desired configuration equals the observed state — same
index list, same stream spec, same replica list — and the persisted state
already reflects that observation, the reconcile produces an empty diff
payload (no index updates, no stream-specification field), issues no
replica call, and leaves the persisted state unchanged. -/
theorem deploy_idempotent (inputs : Inputs) (state : PersistedState) (env : DeployEnv)
    (n : String) (t : ObservedTable) (uarn : String)
    (hcred : env.hasCredentials = true)
    (hiname : inputs.name = some n)
    (hsname : state.name = some n)
    (hdesc : env.describeRaw = .ok t)
    (hsregion : state.region = some (mergeConfig inputs).region)
    (hgsi : t.globalSecondaryIndexes = some (mergeConfig inputs).globalSecondaryIndexes)
    (hstream : t.stream = some (mergeConfig inputs).stream)
    (hreplicas : t.replicas = some (mergeConfig inputs).replicas)
    (hupd : env.updateRaw = .ok uarn)
    (hsarn : state.arn = some t.arn)
    (hdel : state.deletionPolicy = (mergeConfig inputs).deletionPolicy)
    (hpoll : (mergeConfig inputs).stream.StreamEnabled = true →
      ∃ a, getStreamArn env.pollArn = .ok a ∧ state.streamArn = some a)
    (hnostream : (mergeConfig inputs).stream.StreamEnabled = false →
      state.streamArn = none) :
    gsiUpdatesField (t.globalSecondaryIndexes.getD [])
        (mergeConfig inputs).globalSecondaryIndexes = none ∧
    getStreamUpdates t.stream (some (mergeConfig inputs).stream) = none ∧
    updateReplicas (t.replicas.getD []) (mergeConfig inputs).replicas = none ∧
    (deploy inputs state env).2.1 = state ∧
    ((deploy inputs state env).2.2.filter isReplicaCall) = [] ∧
    ProviderCall.update (some n) (mergeConfig inputs).attributeDefinitions none none
      ∈ (deploy inputs state env).2.2 := by
  have hcfgname : (mergeConfig inputs).name = some n := hiname
  have hres : resolveName (mergeConfig inputs).name state env.fresh
      = .ok (some n, state) := by
    unfold resolveName
    rw [hcfgname, hsname]
    simp
  have hdesc' : describeTable env.describeRaw = .ok (some t) := by rw [hdesc]; rfl
  have hgsiU : gsiUpdatesField (t.globalSecondaryIndexes.getD [])
      (mergeConfig inputs).globalSecondaryIndexes = none := by
    rw [hgsi]
    exact gsiUpdatesField_self _
  have hstreamU : getStreamUpdates t.stream (some (mergeConfig inputs).stream) = none := by
    rw [hstream]
    exact getStreamUpdates_self _
  have hreplU : updateReplicas (t.replicas.getD [])
      (mergeConfig inputs).replicas = none := by
    rw [hreplicas]
    exact updateReplicas_self _
  refine ⟨hgsiU, hstreamU, hreplU, ?_⟩
  have hregfalse : ¬(state.region ≠ some (mergeConfig inputs).region) := by
    simp [hsregion]
  rcases hse : (mergeConfig inputs).stream.StreamEnabled with _ | _
  · have hss : state.streamArn = none := hnostream hse
    have hD : deploy inputs state env
        = (.ok { name := some n, arn := some t.arn,
                 region := some (mergeConfig inputs).region, streamArn := none },
           { name := some n, arn := some t.arn,
             region := some (mergeConfig inputs).region, streamArn := none,
             deletionPolicy := (mergeConfig inputs).deletionPolicy },
           [ProviderCall.describe (some n),
            ProviderCall.update (some n) (mergeConfig inputs).attributeDefinitions
              none none]) := by
      simp only [deploy, hcred, Bool.not_true, Bool.false_eq_true, if_false, hres, hdesc',
        hupd, hse, hgsiU, hstreamU, finishDeploy, hreplU]
      rw [if_neg hregfalse]
      simp
    rw [hD]
    refine ⟨?_, ?_, ?_⟩
    · show ({ name := some n, arn := some t.arn,
              region := some (mergeConfig inputs).region, streamArn := none,
              deletionPolicy := (mergeConfig inputs).deletionPolicy } : PersistedState)
        = state
      rw [← hsname, ← hsarn, ← hsregion, ← hss, ← hdel]
    · rfl
    · simp
  · obtain ⟨a, hga, hsa⟩ := hpoll hse
    have hD : deploy inputs state env
        = (.ok { name := some n, arn := some t.arn,
                 region := some (mergeConfig inputs).region, streamArn := some a },
           { name := some n, arn := some t.arn,
             region := some (mergeConfig inputs).region, streamArn := some a,
             deletionPolicy := (mergeConfig inputs).deletionPolicy },
           [ProviderCall.describe (some n),
            ProviderCall.update (some n) (mergeConfig inputs).attributeDefinitions
              none none]
            ++ List.replicate (getStreamArnAttempts env.pollArn)
                (ProviderCall.describe (some n))) := by
      simp only [deploy, hcred, Bool.not_true, Bool.false_eq_true, if_false, hres, hdesc',
        hupd, hse, if_true, hga, hgsiU, hstreamU, finishDeploy, hreplU]
      rw [if_neg hregfalse]
      simp
    rw [hD]
    refine ⟨?_, ?_, ?_⟩
    · show ({ name := some n, arn := some t.arn,
              region := some (mergeConfig inputs).region, streamArn := some a,
              deletionPolicy := (mergeConfig inputs).deletionPolicy } : PersistedState)
        = state
      rw [← hsname, ← hsarn, ← hsregion, ← hsa, ← hdel]
    · rw [List.filter_append, filter_replicate_describe]
      rfl
    · simp

/-- Witness for C6: a concrete deploy whose desired config matches the
observed table and persisted state exactly is a no-op on state and diff
payload. -/
theorem deploy_idempotent_witness :
    gsiUpdatesField [] [] = none ∧
    getStreamUpdates (some { StreamEnabled := false })
      (some { StreamEnabled := false }) = none ∧
    updateReplicas [] [] = none ∧
    (deploy { name := some "tbl6", region := some "us-east-1" }
        { name := some "tbl6", arn := some "arn:6", region := some "us-east-1" }
        { fresh := "x",
          describeRaw := .ok { arn := "arn:6", name := "tbl6",
                               attributeDefinitions := defaultAttributeDefinitions,
                               keySchema := defaultKeySchema,
                               globalSecondaryIndexes := some [],
                               stream := some { StreamEnabled := false },
                               streamArn := none, replicas := some [] },
          createRaw := .ok ("arn:6", none),
          updateRaw := .ok "arn:6",
          pollArn := fun _ => none }).2.1 = { name := some "tbl6", arn := some "arn:6", region := some "us-east-1" } ∧
    ((deploy { name := some "tbl6", region := some "us-east-1" }
        { name := some "tbl6", arn := some "arn:6", region := some "us-east-1" }
        { fresh := "x",
          describeRaw := .ok { arn := "arn:6", name := "tbl6",
                               attributeDefinitions := defaultAttributeDefinitions,
                               keySchema := defaultKeySchema,
                               globalSecondaryIndexes := some [],
                               stream := some { StreamEnabled := false },
                               streamArn := none, replicas := some [] },
          createRaw := .ok ("arn:6", none),
          updateRaw := .ok "arn:6",
          pollArn := fun _ => none }).2.2.filter isReplicaCall) = [] ∧
    ProviderCall.update (some "tbl6") defaultAttributeDefinitions none none
      ∈ (deploy { name := some "tbl6", region := some "us-east-1" }
        { name := some "tbl6", arn := some "arn:6", region := some "us-east-1" }
        { fresh := "x",
          describeRaw := .ok { arn := "arn:6", name := "tbl6",
                               attributeDefinitions := defaultAttributeDefinitions,
                               keySchema := defaultKeySchema,
                               globalSecondaryIndexes := some [],
                               stream := some { StreamEnabled := false },
                               streamArn := none, replicas := some [] },
          createRaw := .ok ("arn:6", none),
          updateRaw := .ok "arn:6",
          pollArn := fun _ => none }).2.2 :=
  deploy_idempotent { name := some "tbl6", region := some "us-east-1" }
    { name := some "tbl6", arn := some "arn:6", region := some "us-east-1" }
    { fresh := "x",
          describeRaw := .ok { arn := "arn:6", name := "tbl6",
                               attributeDefinitions := defaultAttributeDefinitions,
                               keySchema := defaultKeySchema,
                               globalSecondaryIndexes := some [],
                               stream := some { StreamEnabled := false },
                               streamArn := none, replicas := some [] },
          createRaw := .ok ("arn:6", none),
          updateRaw := .ok "arn:6",
          pollArn := fun _ => none }
    "tbl6"
    { arn := "arn:6", name := "tbl6",
                               attributeDefinitions := defaultAttributeDefinitions,
                               keySchema := defaultKeySchema,
                               globalSecondaryIndexes := some [],
                               stream := some { StreamEnabled := false },
                               streamArn := none, replicas := some [] }
    "arn:6" rfl rfl rfl rfl rfl rfl rfl rfl rfl rfl rfl
    (fun h => absurd h (by decide)) (fun _ => rfl)

/-- Witness for C2 at concrete stream specs: an enabled-to-enabled pair is a
no-change decision and produces no stream-specification field, and an
enabled-to-absent pair decides disable. -/
theorem stream_decision_table_witness :
    streamDecisionOf (some { StreamEnabled := true }) (some { StreamEnabled := true })
      = specStreamDecision (some { StreamEnabled := true }) (some { StreamEnabled := true }) ∧
    streamSpecField (some { StreamEnabled := true }) (some { StreamEnabled := true })
      = none ∧
    streamDecisionOf (some { StreamEnabled := true }) none
      = specStreamDecision (some { StreamEnabled := true }) none := by
  refine ⟨(stream_decision_table _ _).1, ?_, (stream_decision_table _ none).1⟩
  exact (stream_decision_table (some { StreamEnabled := true })
    (some { StreamEnabled := true })).2 rfl

end AwsDynamoDb
